import Mathlib

/-!
Shallow embedding of `src/app.py` (a PDF text extractor plus a TF-IDF
computation built on `sklearn.feature_extraction.text.TfidfVectorizer`
with `use_idf=True, norm=None` and otherwise default settings).

The embedding models:

* `extract_text_from_pdf` (app.py lines 16-22): per-page text extraction,
  where a page with no extractable text yields `none` (pdfplumber's
  `page.extract_text()` returning `None`).
* `calculate_tf_idf` (app.py lines 32-62): the statistics engine. The
  vectorizer's behaviour is embedded faithfully to scikit-learn's
  documented semantics for the settings used by the source:
  - analyzer: lowercase the document, then extract the matches of the
    token pattern `\b\w\w+\b`, i.e. the maximal runs of word characters
    (alphanumeric or underscore; modelled on ASCII text) of length ≥ 2;
  - vocabulary: the deduplicated union of all tokens, sorted ascending;
  - an empty vocabulary raises `ValueError("empty vocabulary; ...")`;
  - `fit_transform` with `use_idf=True, norm=None` returns the matrix
    `count[d][t] * idf[t]` with `idf[t] = ln((1+N)/(1+df[t])) + 1`
    (`smooth_idf=True` default), with no normalization;
  - `idf_` is the idf vector, `get_feature_names_out()` the sorted
    vocabulary.
  The numeric layer uses exact reals in place of IEEE float64.
-/

namespace App

/-- A word character for the default token pattern `\b\w\w+\b`:
alphanumeric or underscore (Python's `\w`, modelled on ASCII). -/
def isWordChar (c : Char) : Bool := c.isAlphanum || c = '_'

/-- Extract the maximal runs of characters satisfying `p`, in order.
This is the semantics of `re.findall` for a pattern matching maximal
`p`-runs (boundary-delimited), before any length filtering. -/
def extractRuns (p : Char → Bool) : List Char → List (List Char)
  | [] => []
  | c :: cs =>
    let rs := extractRuns p cs
    if p c then
      match cs with
      | [] => [[c]]
      | c₂ :: _ => if p c₂ then (c :: rs.headD []) :: rs.tail else [c] :: rs
    else rs

/-- The analyzer of `TfidfVectorizer` at default settings
(app.py line 36): lowercase the document, then keep the maximal runs of
word characters of length at least 2, as strings. -/
def tokenize (doc : String) : List String :=
  ((extractRuns isWordChar (doc.toList.map Char.toLower)).filter
    (fun r => 2 ≤ r.length)).map List.asString

/-- Computable lexicographic comparison of character lists (by the
character order, i.e. by code point), modelling Python string `<=`. -/
def lexLe : List Char → List Char → Bool
  | [], _ => true
  | _ :: _, [] => false
  | a :: as, b :: bs =>
    if a < b then true else if b < a then false else lexLe as bs

/-- Computable string comparison used for the vocabulary sort. -/
def strLe (s t : String) : Bool := lexLe s.toList t.toList

/-- `strLe` as a relation. -/
def strLeRel (s t : String) : Prop := strLe s t = true

instance : DecidableRel strLeRel := fun s t => by
  unfold strLeRel; infer_instance

/-- The vocabulary of the fitted vectorizer
(`get_feature_names_out()`, app.py line 46): the union of the tokens of
all documents, deduplicated and sorted ascending. -/
def buildVocabulary (docs : List String) : List String :=
  List.insertionSort strLeRel ((docs.flatMap tokenize).dedup)

/-- Raw count of term `t` in document `doc` (the entry of the
vectorizer's internal count matrix). -/
def termCount (doc t : String) : ℕ := (tokenize doc).count t

/-- Document frequency as scikit-learn computes it: the number of
documents whose count for `t` is nonzero. -/
def docFreq (docs : List String) (t : String) : ℕ :=
  docs.countP (fun d => decide (0 < termCount d t))

/-- Spec-side tokenizer, following the words of the specification
("case-fold to lowercase, extract maximal runs of alphanumeric
characters (and optionally a minimum token length ≥ 2) as terms"):
identical to `tokenize` except that the runs consist of alphanumeric
characters only, with no underscore. Used to compare the spec's stated
tokenization rule with the one the code actually uses. -/
def tokenizeSpecAlnum (doc : String) : List String :=
  ((extractRuns (fun c => c.isAlphanum) (doc.toList.map Char.toLower)).filter
    (fun r => 2 ≤ r.length)).map List.asString

/-- Maximal runs of `p`-characters, written in the direct
"take the run, skip the separators, repeat" style of the specification's
wording. Provably equal to `extractRuns`. -/
def maximalRuns (p : Char → Bool) : List Char → List (List Char)
  | [] => []
  | c :: cs =>
    if p c then (c :: cs.takeWhile p) :: maximalRuns p (cs.dropWhile p)
    else maximalRuns p cs
termination_by l => l.length
decreasing_by
  all_goals simp only [List.length_cons]
  · exact Nat.lt_succ_of_le (List.dropWhile_sublist _).length_le
  · exact Nat.lt_succ_self _

/-- The error message scikit-learn raises from `fit_transform`
(app.py line 37) when the corpus produces no vocabulary at all. -/
def emptyVocabularyError : String :=
  "empty vocabulary; perhaps the documents only contain stop words"

/-- The four artifacts assembled by `calculate_tf_idf`
(app.py lines 39-55), one field per sheet written at lines 58-62. -/
structure TfIdfResult where
  terms : List String
  tf : List (List ℝ)
  idf : List ℝ
  tfidf : List (List ℝ)
  docOccurrences : List ℕ

noncomputable section

/-- Smoothed inverse document frequency used by `TfidfVectorizer` with
`smooth_idf=True` (the default): `ln((1+n)/(1+d)) + 1` for corpus size
`n` and document frequency `d`. -/
def idfVal (n d : ℕ) : ℝ := Real.log ((1 + (n : ℝ)) / (1 + (d : ℝ))) + 1

/-- The idf vector `vectorizer.idf_` (app.py line 43), one entry per
vocabulary term in vocabulary order. -/
def idfVector (docs : List String) : List ℝ :=
  (buildVocabulary docs).map (fun t => idfVal docs.length (docFreq docs t))

/-- The dense matrix `tfidf_matrix.toarray()` (app.py lines 37/40/55):
with `use_idf=True, norm=None` the fitted matrix holds
`count[d][t] * idf[t]` in every cell, with no normalization. -/
def tfidfMatrix (docs : List String) : List (List ℝ) :=
  docs.map (fun d =>
    (buildVocabulary docs).map
      (fun t => (termCount d t : ℝ) * idfVal docs.length (docFreq docs t)))

open Classical in
/-- Number of rows of `M` whose entry in column `j` is strictly
positive: one component of `(tf > 0).sum(axis=0)` (app.py line 49). -/
def colPosCount (M : List (List ℝ)) (j : ℕ) : ℕ :=
  M.countP (fun row => decide (0 < row.getD j 0))

/-- The artifacts as assembled at app.py lines 39-55: the "TF" sheet
and the "TF-IDF" sheet are both `tfidf_matrix.toarray()`, the idf sheet
is `vectorizer.idf_`, and the occurrence sheet counts the positive
entries of each column of the fitted matrix. -/
def computeArtifacts (docs : List String) : TfIdfResult where
  terms := buildVocabulary docs
  tf := tfidfMatrix docs
  idf := idfVector docs
  tfidf := tfidfMatrix docs
  docOccurrences :=
    (List.range (buildVocabulary docs).length).map (colPosCount (tfidfMatrix docs))

/-- The statistics engine `calculate_tf_idf` (app.py lines 32-62) on an
already-loaded corpus (the `Extracted Text` column after `fillna('')`).
`fit_transform` raises when the vocabulary is empty; otherwise the four
artifacts are produced. -/
def calculate_tf_idf (docs : List String) : Except String TfIdfResult :=
  if buildVocabulary docs = [] then Except.error emptyVocabularyError
  else Except.ok (computeArtifacts docs)

end

/-- `extract_text_from_pdf` (app.py lines 16-22) over an abstract PDF,
modelled as the list of per-page extraction results: pdfplumber's
`page.extract_text()` yields `none` when a page has no extractable
text, and the function records `[i, text]` for every page `i`,
numbering from 1. -/
def extract_text_from_pdf (pages : List (Option String)) : List (ℕ × Option String) :=
  pages.enum.map (fun p => (p.1 + 1, p.2))

/-! ### Helper lemmas -/

theorem lexLe_iff_not_lex (l₁ l₂ : List Char) :
    lexLe l₁ l₂ = true ↔ ¬ List.Lex (· < ·) l₂ l₁ := by
  induction l₁ generalizing l₂ with
  | nil =>
    simp only [lexLe]
    exact iff_of_true trivial (List.Lex.not_nil_right _ _)
  | cons a as ih =>
    cases l₂ with
    | nil =>
      simp only [lexLe]
      exact iff_of_false (by simp) (not_not_intro List.Lex.nil)
    | cons b bs =>
      simp only [lexLe]
      rcases lt_trichotomy a b with hab | hab | hab
      · rw [if_pos hab]
        refine iff_of_true rfl ?_
        intro hlex
        cases hlex with
        | cons h₂ => exact lt_irrefl a hab
        | rel h₂ => exact lt_asymm hab h₂
      · subst hab
        rw [if_neg (lt_irrefl a), if_neg (lt_irrefl a), List.Lex.cons_iff]
        exact ih bs
      · rw [if_neg (lt_asymm hab), if_pos hab]
        exact iff_of_false (by simp) (not_not_intro (List.Lex.rel hab))

theorem strLeRel_iff (s t : String) : strLeRel s t ↔ s ≤ t := by
  rw [strLeRel, strLe, lexLe_iff_not_lex, String.le_iff_toList_le, ← not_lt]
  exact Iff.rfl

instance : IsTotal String strLeRel :=
  ⟨fun s t => by
    rcases le_total s t with h | h
    · exact Or.inl ((strLeRel_iff s t).mpr h)
    · exact Or.inr ((strLeRel_iff t s).mpr h)⟩

instance : IsTrans String strLeRel :=
  ⟨fun a b c hab hbc =>
    (strLeRel_iff a c).mpr
      (le_trans ((strLeRel_iff a b).mp hab) ((strLeRel_iff b c).mp hbc))⟩

theorem mem_buildVocabulary {t : String} {docs : List String} :
    t ∈ buildVocabulary docs ↔ ∃ d ∈ docs, t ∈ tokenize d := by
  unfold buildVocabulary
  rw [List.mem_insertionSort, List.mem_dedup, List.mem_flatMap]

theorem nodup_buildVocabulary (docs : List String) : (buildVocabulary docs).Nodup :=
  (List.perm_insertionSort strLeRel ((docs.flatMap tokenize).dedup)).symm.nodup
    (List.nodup_dedup _)

theorem sorted_buildVocabulary (docs : List String) :
    (buildVocabulary docs).Sorted (· ≤ ·) :=
  (List.sorted_insertionSort strLeRel ((docs.flatMap tokenize).dedup)).imp
    (fun hab => (strLeRel_iff _ _).mp hab)

theorem getD_map_indexOf {α β : Type} [DecidableEq α] (f : α → β) {l : List α}
    {t : α} (h : t ∈ l) (dflt : β) :
    (l.map f).getD (l.indexOf t) dflt = f t := by
  have hlt : l.indexOf t < l.length := List.indexOf_lt_length.mpr h
  have hlt' : l.indexOf t < (l.map f).length := by simpa using hlt
  rw [List.getD_eq_getElem?_getD, List.getElem?_eq_getElem hlt', Option.getD_some,
    List.getElem_map, List.getElem_indexOf hlt]

theorem getD_map_getD {α β : Type} (f : α → β) {l : List α} {i : ℕ}
    (h : i < l.length) (dflt : β) (dα : α) :
    (l.map f).getD i dflt = f (l.getD i dα) := by
  have hlt' : i < (l.map f).length := by simpa using h
  rw [List.getD_eq_getElem?_getD, List.getElem?_eq_getElem hlt', Option.getD_some,
    List.getElem_map, List.getD_eq_getElem?_getD, List.getElem?_eq_getElem h,
    Option.getD_some]

theorem docFreq_eq_countP (docs : List String) (t : String) :
    docFreq docs t = docs.countP (fun d => decide (t ∈ tokenize d)) := by
  unfold docFreq
  refine List.countP_congr ?_
  intro d _
  simp only [decide_eq_true_eq]
  unfold termCount
  exact List.count_pos_iff

theorem docFreq_le_length (docs : List String) (t : String) :
    docFreq docs t ≤ docs.length := List.countP_le_length _

theorem one_le_idfVal {n d : ℕ} (h : d ≤ n) : 1 ≤ idfVal n d := by
  unfold idfVal
  have h₁ : (0 : ℝ) < 1 + (d : ℝ) := by positivity
  have h₂ : 1 + (d : ℝ) ≤ 1 + (n : ℝ) := by
    have hc : (d : ℝ) ≤ (n : ℝ) := Nat.cast_le.mpr h
    linarith
  have h₃ : (0 : ℝ) ≤ Real.log ((1 + (n : ℝ)) / (1 + (d : ℝ))) :=
    Real.log_nonneg ((one_le_div h₁).mpr h₂)
  linarith

theorem idfVal_pos {n d : ℕ} (h : d ≤ n) : 0 < idfVal n d :=
  lt_of_lt_of_le one_pos (one_le_idfVal h)

theorem extractRuns_eq_maximalRuns (p : Char → Bool) (l : List Char) :
    extractRuns p l = maximalRuns p l := by
  induction l with
  | nil =>
    rw [maximalRuns]
    rfl
  | cons c cs ih =>
    rw [maximalRuns]
    cases cs with
    | nil =>
      have hstep : extractRuns p [c] = if p c then [[c]] else [] := rfl
      rw [hstep]
      by_cases hc : p c
      · rw [if_pos hc, if_pos hc]
        simp [maximalRuns]
      · rw [if_neg hc, if_neg hc, maximalRuns]
    | cons c₂ cs₂ =>
      have hstep : extractRuns p (c :: c₂ :: cs₂) =
          if p c then
            (if p c₂ then
              (c :: (extractRuns p (c₂ :: cs₂)).headD []) ::
                (extractRuns p (c₂ :: cs₂)).tail
            else [c] :: extractRuns p (c₂ :: cs₂))
          else extractRuns p (c₂ :: cs₂) := rfl
      rw [hstep]
      by_cases hc : p c
      · rw [if_pos hc, if_pos hc]
        by_cases hc₂ : p c₂
        · have hmr : maximalRuns p (c₂ :: cs₂) =
              (c₂ :: cs₂.takeWhile p) :: maximalRuns p (cs₂.dropWhile p) := by
            conv_lhs => rw [maximalRuns]
            rw [if_pos hc₂]
          rw [ih, hmr]
          simp [hc₂, List.takeWhile_cons_of_pos hc₂, List.dropWhile_cons_of_pos hc₂]
        · rw [if_neg hc₂, ih, List.takeWhile_cons_of_neg hc₂,
            List.dropWhile_cons_of_neg hc₂]
      · rw [if_neg hc, if_neg hc, ih]

/-! ### Claims -/

/-- C1 counterexample: on the empty corpus and on a corpus of three
empty documents, `calculate_tf_idf` does not return an empty vocabulary
with zero-column artifacts; it fails with scikit-learn's
empty-vocabulary error. -/
theorem claim_C1_counterexample :
    calculate_tf_idf ([] : List String) = Except.error emptyVocabularyError ∧
    calculate_tf_idf ["", "", ""] = Except.error emptyVocabularyError :=
  ⟨rfl, rfl⟩

/-- C1 (amended): for the empty corpus and for every corpus in which
all documents tokenize to zero terms, `calculate_tf_idf` fails with the
empty-vocabulary error raised by the vectorizer, instead of returning
empty artifacts. -/
theorem claim_C1 (docs : List String) (h : ∀ d ∈ docs, tokenize d = []) :
    calculate_tf_idf docs = Except.error emptyVocabularyError := by
  have hvocab : buildVocabulary docs = [] := by
    rw [List.eq_nil_iff_forall_not_mem]
    intro t ht
    rcases mem_buildVocabulary.mp ht with ⟨d, hd, htok⟩
    rw [h d hd] at htok
    exact List.not_mem_nil t htok
  rw [calculate_tf_idf, if_pos hvocab]

/-- C1 witness: the three-empty-documents corpus satisfies the
hypothesis and indeed produces the error. -/
theorem claim_C1_witness :
    calculate_tf_idf ["", "", ""] = Except.error emptyVocabularyError :=
  claim_C1 ["", "", ""] (by decide)

/-- C3: the TF artifact and the TF-IDF artifact of `calculate_tf_idf`
are identical matrices, both taken from the same fitted matrix
`tfidf_matrix.toarray()` (app.py lines 40 and 55). -/
theorem claim_C3 (docs : List String) :
    (calculate_tf_idf docs).map TfIdfResult.tf =
      (calculate_tf_idf docs).map TfIdfResult.tfidf := by
  rw [calculate_tf_idf]
  split
  · rfl
  · rfl

/-- C10: a page on which text extraction yields no text (`none`) still
gets a record, carrying the designated empty value `none` and its
1-based page number, and no record is dropped (the output has one
record per page). -/
theorem claim_C10 (pages : List (Option String)) (i : ℕ)
    (h : pages[i]? = some none) :
    (extract_text_from_pdf pages).length = pages.length ∧
    (extract_text_from_pdf pages)[i]? = some (i + 1, none) := by
  constructor
  · simp [extract_text_from_pdf]
  · rw [extract_text_from_pdf, List.getElem?_map, List.getElem?_enum, h]
    rfl

/-- C10 witness: a two-page document whose second page has no
extractable text yields a second record `(2, none)`. -/
theorem claim_C10_witness :
    (extract_text_from_pdf [some "x", none]).length = [some "x", none].length ∧
    (extract_text_from_pdf [some "x", none])[1]? = some (1 + 1, none) :=
  claim_C10 [some "x", none] 1 (by decide)

/-- The entry of a fitted-matrix row in the column of a vocabulary term
is strictly positive exactly when the document contains the term. -/
theorem tfidf_entry_pos_iff (docs : List String) (d t : String)
    (h : t ∈ buildVocabulary docs) :
    (0 < ((buildVocabulary docs).map
        (fun u => (termCount d u : ℝ) * idfVal docs.length (docFreq docs u))).getD
        ((buildVocabulary docs).indexOf t) 0) ↔ t ∈ tokenize d := by
  rw [getD_map_indexOf _ h]
  have hpos : 0 < idfVal docs.length (docFreq docs t) :=
    idfVal_pos (docFreq_le_length docs t)
  constructor
  · intro hp
    by_contra hmem
    have h₀ : termCount d t = 0 := by
      unfold termCount
      exact List.count_eq_zero.mpr hmem
    rw [h₀] at hp
    simp at hp
  · intro hmem
    have h₀ : 0 < termCount d t := by
      unfold termCount
      exact List.count_pos_iff.mpr hmem
    exact mul_pos (by exact_mod_cast h₀) hpos

/-- C2 evaluated at the failing input: in the corpus
`["the cat sat", "the dog sat", "the cat and the dog"]` the TF-sheet
entry for document 0 and term `"cat"` (column 1) is the raw count
multiplied by `ln(4/3) + 1`, and since the raw count is `1` this is not
equal to the raw count — the emitted TF matrix does not hold raw
integer counts. -/
theorem claim_C2_code_bug :
    ((computeArtifacts ["the cat sat", "the dog sat", "the cat and the dog"]).tf.getD
        0 []).getD 1 0 =
      (termCount "the cat sat" "cat" : ℝ) * (Real.log (4 / 3) + 1) ∧
    termCount "the cat sat" "cat" = 1 ∧
    (termCount "the cat sat" "cat" : ℝ) * (Real.log (4 / 3) + 1) ≠
      (termCount "the cat sat" "cat" : ℝ) := by
  refine ⟨?_, by decide, ?_⟩
  · have hvocab : buildVocabulary ["the cat sat", "the dog sat", "the cat and the dog"] =
        ["and", "cat", "dog", "sat", "the"] := by decide
    have hdf : docFreq ["the cat sat", "the dog sat", "the cat and the dog"] "cat" = 2 := by
      decide
    have htf : (computeArtifacts ["the cat sat", "the dog sat", "the cat and the dog"]).tf =
        tfidfMatrix ["the cat sat", "the dog sat", "the cat and the dog"] := rfl
    rw [htf, tfidfMatrix, hvocab]
    simp only [List.map_cons, List.map_nil, List.getD_cons_zero, List.getD_cons_succ,
      List.length_cons, List.length_nil, hdf, idfVal]
    norm_num
  · have hlog : 0 < Real.log (4 / 3) := Real.log_pos (by norm_num)
    have hcount : termCount "the cat sat" "cat" = 1 := by decide
    rw [hcount]
    intro heq
    push_cast at heq
    linarith

/-- C4: for every vocabulary term `t`, the engine's IDF entry at the
column of `t` equals `ln((1 + N) / (1 + df[t])) + 1`, where `N` is the
number of documents and `df[t]` the number of documents containing `t`
at least once. -/
theorem claim_C4 (docs : List String) (t : String) (h : t ∈ buildVocabulary docs) :
    (computeArtifacts docs).idf.getD ((buildVocabulary docs).indexOf t) 0 =
      Real.log ((1 + (docs.length : ℝ)) /
        (1 + ((docs.countP (fun d => decide (t ∈ tokenize d))) : ℝ))) + 1 := by
  have hidf : (computeArtifacts docs).idf = idfVector docs := rfl
  rw [hidf, idfVector, getD_map_indexOf _ h, idfVal, docFreq_eq_countP]

/-- C4 witness: in the three-document scenario corpus, the IDF entry of
`"and"` is given by the smoothed formula. -/
theorem claim_C4_witness :
    (computeArtifacts ["the cat sat", "the dog sat", "the cat and the dog"]).idf.getD
        ((buildVocabulary ["the cat sat", "the dog sat", "the cat and the dog"]).indexOf
          "and") 0 =
      Real.log ((1 + ((["the cat sat", "the dog sat", "the cat and the dog"].length : ℕ) : ℝ)) /
        (1 + ((["the cat sat", "the dog sat", "the cat and the dog"].countP
          (fun d => decide ("and" ∈ tokenize d))) : ℝ))) + 1 :=
  claim_C4 ["the cat sat", "the dog sat", "the cat and the dog"] "and" (by decide)

/-- C5: every cell of the TF-IDF artifact equals the raw occurrence
count of the term in the document multiplied by the IDF artifact's
entry for the term — no further row normalization is applied. -/
theorem claim_C5 (docs : List String) (d : ℕ) (t : String)
    (hd : d < docs.length) (ht : t ∈ buildVocabulary docs) :
    ((computeArtifacts docs).tfidf.getD d []).getD
        ((buildVocabulary docs).indexOf t) 0 =
      ((tokenize (docs.getD d "")).count t : ℝ) *
        (computeArtifacts docs).idf.getD ((buildVocabulary docs).indexOf t) 0 := by
  have htfidf : (computeArtifacts docs).tfidf = tfidfMatrix docs := rfl
  have hidf : (computeArtifacts docs).idf = idfVector docs := rfl
  rw [htfidf, hidf, tfidfMatrix, idfVector, getD_map_getD _ hd [] "",
    getD_map_indexOf _ ht, getD_map_indexOf _ ht, termCount]

/-- C5 witness: in the scenario corpus, the TF-IDF cell of document 0
and term `"the"` is the raw count times the IDF entry. -/
theorem claim_C5_witness :
    ((computeArtifacts ["the cat sat", "the dog sat", "the cat and the dog"]).tfidf.getD
        0 []).getD
        ((buildVocabulary ["the cat sat", "the dog sat", "the cat and the dog"]).indexOf
          "the") 0 =
      ((tokenize (["the cat sat", "the dog sat", "the cat and the dog"].getD 0 "")).count
          "the" : ℝ) *
        (computeArtifacts ["the cat sat", "the dog sat", "the cat and the dog"]).idf.getD
          ((buildVocabulary ["the cat sat", "the dog sat", "the cat and the dog"]).indexOf
            "the") 0 :=
  claim_C5 ["the cat sat", "the dog sat", "the cat and the dog"] 0 "the" (by decide)
    (by decide)

/-- C6: for every vocabulary term `t`, the DocOccurrence entry at the
column of `t` — the number of rows of the fitted matrix with a strictly
positive entry in that column — equals the number of documents
containing `t` at least once. -/
theorem claim_C6 (docs : List String) (t : String) (h : t ∈ buildVocabulary docs) :
    (computeArtifacts docs).docOccurrences.getD
        ((buildVocabulary docs).indexOf t) 0 =
      docs.countP (fun d => decide (t ∈ tokenize d)) := by
  have hj : (buildVocabulary docs).indexOf t < (buildVocabulary docs).length :=
    List.indexOf_lt_length.mpr h
  have hdo : (computeArtifacts docs).docOccurrences =
      (List.range (buildVocabulary docs).length).map (colPosCount (tfidfMatrix docs)) :=
    rfl
  have hr : (List.range (buildVocabulary docs).length).getD
      ((buildVocabulary docs).indexOf t) 0 = (buildVocabulary docs).indexOf t := by
    rw [List.getD_eq_getElem?_getD, List.getElem?_range hj, Option.getD_some]
  rw [hdo, getD_map_getD _ (by simpa using hj) 0 0, hr, colPosCount, tfidfMatrix,
    List.countP_map]
  refine List.countP_congr ?_
  intro d hd
  simp only [Function.comp, decide_eq_true_eq]
  exact tfidf_entry_pos_iff docs d t h

/-- C6 witness: in the scenario corpus, the DocOccurrence entry of
`"and"` equals the number of documents containing `"and"`. -/
theorem claim_C6_witness :
    (computeArtifacts ["the cat sat", "the dog sat", "the cat and the dog"]).docOccurrences.getD
        ((buildVocabulary ["the cat sat", "the dog sat", "the cat and the dog"]).indexOf
          "and") 0 =
      ["the cat sat", "the dog sat", "the cat and the dog"].countP
        (fun d => decide ("and" ∈ tokenize d)) :=
  claim_C6 ["the cat sat", "the dog sat", "the cat and the dog"] "and" (by decide)

/-- C7: the IDF artifact's entry of every vocabulary term is strictly
positive, including for terms occurring in all documents. -/
theorem claim_C7 (docs : List String) (t : String) (h : t ∈ buildVocabulary docs) :
    0 < (computeArtifacts docs).idf.getD ((buildVocabulary docs).indexOf t) 0 := by
  have hidf : (computeArtifacts docs).idf = idfVector docs := rfl
  rw [hidf, idfVector, getD_map_indexOf _ h]
  exact idfVal_pos (docFreq_le_length docs t)

/-- C7 witness: `"the"` occurs in all three documents of the scenario
corpus and its IDF entry is still strictly positive. -/
theorem claim_C7_witness :
    0 < (computeArtifacts ["the cat sat", "the dog sat", "the cat and the dog"]).idf.getD
        ((buildVocabulary ["the cat sat", "the dog sat", "the cat and the dog"]).indexOf
          "the") 0 :=
  claim_C7 ["the cat sat", "the dog sat", "the cat and the dog"] "the" (by decide)

/-- C8: the vocabulary is exactly the deduplicated union of the tokens
of all documents, sorted ascending, and the single column ordering is
shared by all artifacts: the terms header is the vocabulary, the IDF
and DocOccurrence rows have one entry per vocabulary term, and every
row of the TF and TF-IDF matrices has one entry per vocabulary term. -/
theorem claim_C8 (docs : List String) :
    (buildVocabulary docs).Sorted (· ≤ ·) ∧
    (buildVocabulary docs).Nodup ∧
    (∀ t, t ∈ buildVocabulary docs ↔ ∃ d ∈ docs, t ∈ tokenize d) ∧
    (computeArtifacts docs).terms = buildVocabulary docs ∧
    (computeArtifacts docs).idf.length = (buildVocabulary docs).length ∧
    (computeArtifacts docs).docOccurrences.length = (buildVocabulary docs).length ∧
    (computeArtifacts docs).tf.map List.length =
      List.replicate docs.length (buildVocabulary docs).length ∧
    (computeArtifacts docs).tfidf.map List.length =
      List.replicate docs.length (buildVocabulary docs).length := by
  have hrows : (tfidfMatrix docs).map List.length =
      List.replicate docs.length (buildVocabulary docs).length := by
    rw [tfidfMatrix, List.map_map]
    have hcomp : (List.length ∘ fun d =>
        (buildVocabulary docs).map
          (fun t => (termCount d t : ℝ) * idfVal docs.length (docFreq docs t))) =
        fun _ => (buildVocabulary docs).length := by
      funext d
      simp [Function.comp]
    rw [hcomp, List.map_const']
  refine ⟨sorted_buildVocabulary docs, nodup_buildVocabulary docs,
    fun t => mem_buildVocabulary, rfl, ?_, ?_, hrows, hrows⟩
  · show (idfVector docs).length = _
    rw [idfVector, List.length_map]
  · show ((List.range (buildVocabulary docs).length).map
        (colPosCount (tfidfMatrix docs))).length = _
    rw [List.length_map, List.length_range]

/-- C9 counterexample: the code's tokenizer treats the underscore as a
word character (the vectorizer's token pattern is built on `\w`), so on
the document `"a_b"` it produces the token `"a_b"`, while the maximal
alphanumeric runs of `"a_b"` are `"a"` and `"b"`, both shorter than 2,
so the spec-worded tokenizer produces no token at all. -/
theorem claim_C9_counterexample :
    tokenize "a_b" = ["a_b"] ∧ tokenizeSpecAlnum "a_b" = [] := by
  constructor
  · rfl
  · rfl

/-- C9 (amended): the tokenization case-folds the text to lowercase and
extracts as terms exactly the maximal runs of word characters
(alphanumeric or underscore) of length at least 2, discarding the other
characters as separators. -/
theorem claim_C9 (doc : String) :
    tokenize doc =
      ((maximalRuns isWordChar (doc.toList.map Char.toLower)).filter
        (fun r => 2 ≤ r.length)).map List.asString := by
  rw [tokenize, extractRuns_eq_maximalRuns]

end App
